import Mathlib

/-
Verification development for the bounded work queue in src/work_queue.h.

Shallow embedding: the templated C++ class work_queue<T> holds a
std::queue<std::unique_ptr<T>>; a unique_ptr<T> is modelled as Option T
(none is the empty pointer).  The mutex-protected state is made explicit
as a structure, and each public member function becomes a function from
states to states (paired with its return value where the C++ function
returns one).  Operations that can reach undefined behaviour in the C++
source (std::queue::pop on an empty queue; falling off the end of
dequeue without a return statement) return Option and yield none exactly
on those paths.  The counters n_dropped and n_handled are C++ int,
modelled as Int; max is size_t, modelled as Nat.
-/

namespace WorkQueue

/-- State of a work_queue<T> instance: the fields of the C++ class,
with the std::queue of unique_ptrs as a List of Options (front of the
queue is the head of the list). -/
structure WQState (T : Type) where
  shutting_down : Bool
  wait_interval : Int
  n_dropped : Int
  n_handled : Int
  max : Nat
  unguarded_queue : List (Option T)
deriving Repr, DecidableEq

variable {T : Type}

/-- Constructor work_queue(halt_flag, max_depth, wait_interval_ms):
counters start at zero, queue starts empty. -/
def work_queue (halt_flag : Bool) (max_depth : Nat) (wait_interval_ms : Int) :
    WQState T :=
  { shutting_down := halt_flag
    wait_interval := wait_interval_ms
    n_dropped := 0
    n_handled := 0
    max := max_depth
    unguarded_queue := [] }

/-- Member enqueue(std::unique_ptr<T> work_item): returns without change
when shutting down or when the pointer is empty; otherwise, if
size() >= max, increments n_dropped and pops the front before pushing.
The result is none when the source would pop an empty std::queue
(undefined behaviour, reachable only when max = 0). -/
def enqueue (s : WQState T) (work_item : Option T) : Option (WQState T) :=
  if s.shutting_down || work_item.isNone then some s
  else if s.max ≤ s.unguarded_queue.length then
    match s.unguarded_queue with
    | [] => none
    | _ :: rest =>
        some { s with n_dropped := s.n_dropped + 1
                      unguarded_queue := rest ++ [work_item] }
  else some { s with unguarded_queue := s.unguarded_queue ++ [work_item] }

/-- Iterated std::queue::pop: removes k items from the front, none when
the queue runs empty first (each such pop is undefined behaviour). -/
def popN (q : List (Option T)) : Nat → Option (List (Option T))
  | 0 => some q
  | k + 1 =>
      match q with
      | [] => none
      | _ :: rest => popN rest k

/-- Member enqueue(std::vector<std::unique_ptr<T>> & bulk): returns
without change when shutting down; bulk_size counts only the non-empty
pointers; when bulk_size is zero returns without change; otherwise with
plus_bulk = size() + bulk_size it pops plus_bulk - max items from the
front when plus_bulk > max, incrementing n_dropped for each, and then
pushes every element of bulk (the push loop in the source has no
emptiness guard, so empty pointers are pushed too).  The result is none
when the eviction loop pops an empty std::queue (undefined behaviour). -/
def enqueueBulk (s : WQState T) (bulk : List (Option T)) : Option (WQState T) :=
  if s.shutting_down then some s
  else if (bulk.filter Option.isSome).length = 0 then some s
  else
    match popN s.unguarded_queue
        (s.unguarded_queue.length + (bulk.filter Option.isSome).length - s.max) with
    | none => none
    | some q =>
        some { s with
          n_dropped := s.n_dropped
            + ((s.unguarded_queue.length + (bulk.filter Option.isSome).length
                - s.max : Nat) : Int)
          unguarded_queue := q ++ bulk }

/-- Predicate of the condition-variable wait in dequeue, evaluated under
the lock: shutting_down || !unguarded_queue.empty(). -/
def waitForResult (s : WQState T) : Bool :=
  s.shutting_down || !s.unguarded_queue.isEmpty

/-- Wait loop of dequeue, run over the sequence of states observed at
successive wakeups (producers may have changed the queue between
wakeups): control leaves the loop at the first state whose predicate
holds; none means every observed wakeup timed out with the predicate
false (the call is still blocked). -/
def waitLoopExit : List (WQState T) → Option (WQState T)
  | [] => none
  | s :: rest => if waitForResult s then some s else waitLoopExit rest

/-- State held when control reaches the if/else-if after the wait loop
of dequeue: the loop is entered only when the queue is empty and
shutdown is not signalled; otherwise the entry state passes through
directly.  Reading shutting_down from one snapshot models a call during
which the flag holds a fixed value between the predicate evaluation and
the branch. -/
def dequeueExitState (s0 : WQState T) (wakeups : List (WQState T)) :
    Option (WQState T) :=
  if s0.unguarded_queue.isEmpty && !s0.shutting_down then waitLoopExit wakeups
  else some s0

/-- Branching tail of dequeue(): if shutting_down, return an empty
pointer; else if the queue is non-empty, increment n_handled, pop and
return the front; else the C++ function falls off the end with no
return statement (undefined behaviour), modelled as none. -/
def dequeueBody (s : WQState T) : Option (Option T × WQState T) :=
  if s.shutting_down then some (none, s)
  else
    match s.unguarded_queue with
    | v :: rest =>
        some (v, { s with n_handled := s.n_handled + 1
                          unguarded_queue := rest })
    | [] => none

/-- Member dequeue(), composed from the wait loop and its tail. -/
def dequeue (s0 : WQState T) (wakeups : List (WQState T)) :
    Option (Option (Option T × WQState T)) :=
  (dequeueExitState s0 wakeups).map dequeueBody

/-- Member size(): 0 when shutting down, else the queue length. -/
def size (s : WQState T) : Nat :=
  if s.shutting_down then 0 else s.unguarded_queue.length

/-- Member dropped(): returns n_dropped and resets it to zero. -/
def dropped (s : WQState T) : Int × WQState T :=
  (s.n_dropped, { s with n_dropped := 0 })

/-- Member handled(): returns n_handled and resets it to zero. -/
def handled (s : WQState T) : Int × WQState T :=
  (s.n_handled, { s with n_handled := 0 })

/-- Member getMax(). -/
def getMax (s : WQState T) : Nat := s.max

/-- Member setMax(value): overwrites max, touching nothing else. -/
def setMax (s : WQState T) (value : Nat) : WQState T :=
  { s with max := value }

/-- Member getWaitInterval(). -/
def getWaitInterval (s : WQState T) : Int := s.wait_interval

/-- Member setWaitInterval(value). -/
def setWaitInterval (s : WQState T) (value : Int) : WQState T :=
  { s with wait_interval := value }

/-- Producer operation for the ordering claims: a single-item enqueue of
a valid item, or a bulk enqueue of a batch of valid items. -/
inductive EnqOp (T : Type) where
  | single (x : T)
  | bulk (xs : List T)
deriving Repr, DecidableEq

/-- Items carried by one producer operation, in order. -/
def opItems : EnqOp T → List T
  | .single x => [x]
  | .bulk xs => xs

/-- Items carried by a list of producer operations, in order. -/
def opsItems : List (EnqOp T) → List T
  | [] => []
  | op :: ops => opItems op ++ opsItems ops

/-- Run one producer operation through the corresponding enqueue
member (valid items become non-empty unique_ptrs). -/
def applyOp (s : WQState T) : EnqOp T → Option (WQState T)
  | .single x => enqueue s (some x)
  | .bulk xs => enqueueBulk s (xs.map some)

/-- Run a list of producer operations in order. -/
def applyOps (s : WQState T) : List (EnqOp T) → Option (WQState T)
  | [] => some s
  | op :: ops => (applyOp s op).bind fun t => applyOps t ops

/-- Iterated consumer: n successive dequeue calls; each call is entered
with the queue non-empty or shutdown set, so its wait loop passes
straight through and dequeueBody is the code the call executes. -/
def dequeueN (s : WQState T) : Nat → Option (List (Option T) × WQState T)
  | 0 => some ([], s)
  | n + 1 =>
      (dequeueBody s).bind fun p =>
        (dequeueN p.2 n).map fun q => (p.1 :: q.1, q.2)

/-- C1: after a bulk enqueue on a fresh queue with max = 2 and shutdown
false, of a batch holding two valid items with an empty pointer between
them, the stored queue holds 3 items: the eviction computation counts
only the 2 valid items (no eviction needed for 2 <= 2) but the push loop
pushes all 3 elements, so the queue grows past max.  The capacity
invariant claimed by the spec is violated by the code. -/
theorem c1_capacity_exceeded :
    ((enqueueBulk (work_queue false 2 100 : WQState Nat)
        [some 1, none, some 2]).map
      fun s => s.unguarded_queue.length) = some 3
    ∧ (work_queue false 2 100 : WQState Nat).max = 2 := by
  decide

/-- C2: a bulk enqueue of a batch holding one valid item and one empty
pointer, on a fresh queue with max = 10 and shutdown false, stores BOTH
elements: the resulting queue is [some 5, none], so size() changes by 2
and the empty pointer is resident in the queue, contrary to the claim
(and to the source's own comment) that empty pointers are not pushed. -/
theorem c2_null_pushed_in_bulk :
    ((enqueueBulk (work_queue false 10 100 : WQState Nat) [some 5, none]).map
      fun s => s.unguarded_queue) = some [some 5, none] := by
  decide

/-- C3: a bulk enqueue of 2 valid items on a fresh empty queue with
max = 1 and shutdown false computes plus_bulk = 2 > 1 and runs the
eviction loop 1 time on an EMPTY std::queue: pop() on an empty queue is
undefined behaviour, modelled here as the none result.  The claimed
behaviour for N exceeding max is not delivered by the code. -/
theorem c3_pop_empty_ub :
    enqueueBulk (work_queue false 1 100 : WQState Nat) [some 1, some 2]
      = none := by
  decide

/-- C4: whenever the shutdown flag is true, dequeue skips the wait loop
(its entry state passes straight through), returns the empty pointer
with the state unchanged (nothing is removed, n_handled keeps its
value), and size() returns 0 regardless of how many items are stored. -/
theorem c4_shutdown_precedence (T : Type) (s : WQState T)
    (wakeups : List (WQState T)) (h : s.shutting_down = true) :
    dequeueExitState s wakeups = some s
    ∧ dequeueBody s = some (none, s)
    ∧ size s = 0 := by
  refine ⟨?_, ?_, ?_⟩ <;> simp [dequeueExitState, dequeueBody, size, h]

/-- Witness for c4_shutdown_precedence at a shutdown state that still
stores one item. -/
theorem c4_shutdown_precedence_witness :
    dequeueExitState (⟨true, 100, 0, 0, 5, [some 7]⟩ : WQState Nat) []
        = some ⟨true, 100, 0, 0, 5, [some 7]⟩
    ∧ dequeueBody (⟨true, 100, 0, 0, 5, [some 7]⟩ : WQState Nat)
        = some (none, ⟨true, 100, 0, 0, 5, [some 7]⟩)
    ∧ size (⟨true, 100, 0, 0, 5, [some 7]⟩ : WQState Nat) = 0 :=
  c4_shutdown_precedence Nat ⟨true, 100, 0, 0, 5, [some 7]⟩ [] rfl

/-- C5: a single-item enqueue of a valid item with shutdown false and
max at least 1: when the queue length has reached max, the head (oldest)
item is removed, n_dropped grows by exactly 1, and the new item goes to
the tail; when the length is below max, nothing is removed, n_dropped is
untouched, and the new item goes to the tail. -/
theorem c5_single_enqueue (T : Type) (s : WQState T) (x : T)
    (hsd : s.shutting_down = false) (hmax : 1 ≤ s.max) :
    (s.max ≤ s.unguarded_queue.length →
      enqueue s (some x)
        = some { s with n_dropped := s.n_dropped + 1
                        unguarded_queue := s.unguarded_queue.tail ++ [some x] })
    ∧ (s.unguarded_queue.length < s.max →
      enqueue s (some x)
        = some { s with unguarded_queue := s.unguarded_queue ++ [some x] }) := by
  constructor
  · intro hfull
    match hq : s.unguarded_queue with
    | [] =>
        rw [hq] at hfull
        simp only [List.length_nil, Nat.le_zero] at hfull
        omega
    | v :: rest =>
        rw [hq] at hfull
        simp only [List.length_cons] at hfull
        simp [enqueue, hsd, hq, hfull]
  · intro hroom
    have hnotfull : ¬ s.max ≤ s.unguarded_queue.length := by omega
    simp [enqueue, hsd, hnotfull]

/-- Witness for c5_single_enqueue with max = 2: a full queue evicts its
head, and a queue with room appends without eviction. -/
theorem c5_single_enqueue_witness :
    ((⟨false, 100, 0, 0, 2, [some 1, some 2]⟩ : WQState Nat).max
        ≤ (⟨false, 100, 0, 0, 2, [some 1, some 2]⟩ : WQState Nat).unguarded_queue.length →
      enqueue (⟨false, 100, 0, 0, 2, [some 1, some 2]⟩ : WQState Nat) (some 9)
        = some ⟨false, 100, 1, 0, 2, [some 2, some 9]⟩)
    ∧ ((⟨false, 100, 0, 0, 2, [some 1, some 2]⟩ : WQState Nat).unguarded_queue.length
        < (⟨false, 100, 0, 0, 2, [some 1, some 2]⟩ : WQState Nat).max →
      enqueue (⟨false, 100, 0, 0, 2, [some 1, some 2]⟩ : WQState Nat) (some 9)
        = some ⟨false, 100, 0, 0, 2, [some 1, some 2, some 9]⟩) :=
  c5_single_enqueue Nat ⟨false, 100, 0, 0, 2, [some 1, some 2]⟩ 9 rfl (by decide)

/-- C6: any enqueue made while the shutdown flag is true leaves the
state exactly as it was: the single-item form and the bulk form both
return the unchanged state, so nothing is stored or evicted and both
counters keep their values (the whole batch is rejected as a unit). -/
theorem c6_enqueue_during_shutdown (T : Type) (s : WQState T)
    (item : Option T) (bulk : List (Option T)) (h : s.shutting_down = true) :
    enqueue s item = some s ∧ enqueueBulk s bulk = some s := by
  constructor <;> simp [enqueue, enqueueBulk, h]

/-- Witness for c6_enqueue_during_shutdown on a concrete shutdown state,
a valid single item and a batch of two valid items. -/
theorem c6_enqueue_during_shutdown_witness :
    enqueue (⟨true, 100, 0, 0, 3, [some 1]⟩ : WQState Nat) (some 2)
        = some ⟨true, 100, 0, 0, 3, [some 1]⟩
    ∧ enqueueBulk (⟨true, 100, 0, 0, 3, [some 1]⟩ : WQState Nat)
        [some 2, some 3]
        = some ⟨true, 100, 0, 0, 3, [some 1]⟩ :=
  c6_enqueue_during_shutdown Nat ⟨true, 100, 0, 0, 3, [some 1]⟩
    (some 2) [some 2, some 3] rfl

/-- C7: dropped() returns the current n_dropped and zeroes it, so a
second immediate call returns 0, and it leaves the stored queue and the
n_handled counter untouched; symmetrically handled() returns n_handled,
zeroes it, returns 0 on a second immediate call, and leaves the stored
queue and the n_dropped counter untouched. -/
theorem c7_counter_read_reset (T : Type) (s : WQState T) :
    (dropped s).1 = s.n_dropped
    ∧ (dropped (dropped s).2).1 = 0
    ∧ (dropped s).2.unguarded_queue = s.unguarded_queue
    ∧ (dropped s).2.n_handled = s.n_handled
    ∧ (handled s).1 = s.n_handled
    ∧ (handled (handled s).2).1 = 0
    ∧ (handled s).2.unguarded_queue = s.unguarded_queue
    ∧ (handled s).2.n_dropped = s.n_dropped := by
  refine ⟨rfl, rfl, rfl, rfl, rfl, rfl, rfl, rfl⟩

/-- C9: setMax with a value below the current queue length changes only
the capacity bound: the stored queue, both counters, the wait interval
and the shutdown flag are untouched, and max becomes the new value (in
particular no eviction happens during the call itself). -/
theorem c9_setMax_frame (T : Type) (s : WQState T) (value : Nat)
    (h : value < s.unguarded_queue.length) :
    (setMax s value).unguarded_queue = s.unguarded_queue
    ∧ (setMax s value).n_dropped = s.n_dropped
    ∧ (setMax s value).n_handled = s.n_handled
    ∧ (setMax s value).wait_interval = s.wait_interval
    ∧ (setMax s value).shutting_down = s.shutting_down
    ∧ (setMax s value).max = value := by
  refine ⟨rfl, rfl, rfl, rfl, rfl, rfl⟩

/-- Witness for c9_setMax_frame: shrinking max to 1 below a queue of
length 2 changes only the bound. -/
theorem c9_setMax_frame_witness :
    (setMax (⟨false, 100, 0, 0, 5, [some 1, some 2]⟩ : WQState Nat) 1).unguarded_queue
        = (⟨false, 100, 0, 0, 5, [some 1, some 2]⟩ : WQState Nat).unguarded_queue
    ∧ (setMax (⟨false, 100, 0, 0, 5, [some 1, some 2]⟩ : WQState Nat) 1).n_dropped
        = (⟨false, 100, 0, 0, 5, [some 1, some 2]⟩ : WQState Nat).n_dropped
    ∧ (setMax (⟨false, 100, 0, 0, 5, [some 1, some 2]⟩ : WQState Nat) 1).n_handled
        = (⟨false, 100, 0, 0, 5, [some 1, some 2]⟩ : WQState Nat).n_handled
    ∧ (setMax (⟨false, 100, 0, 0, 5, [some 1, some 2]⟩ : WQState Nat) 1).wait_interval
        = (⟨false, 100, 0, 0, 5, [some 1, some 2]⟩ : WQState Nat).wait_interval
    ∧ (setMax (⟨false, 100, 0, 0, 5, [some 1, some 2]⟩ : WQState Nat) 1).shutting_down
        = (⟨false, 100, 0, 0, 5, [some 1, some 2]⟩ : WQState Nat).shutting_down
    ∧ (setMax (⟨false, 100, 0, 0, 5, [some 1, some 2]⟩ : WQState Nat) 1).max = 1 :=
  c9_setMax_frame Nat ⟨false, 100, 0, 0, 5, [some 1, some 2]⟩ 1 (by decide)

/-- Helper: the wait loop only hands control onward at a state where the
condition-variable predicate evaluated true under the lock. -/
theorem waitLoopExit_pred (wakeups : List (WQState T)) (s : WQState T)
    (h : waitLoopExit wakeups = some s) : waitForResult s = true := by
  induction wakeups with
  | nil => simp [waitLoopExit] at h
  | cons w rest ih =>
      by_cases hw : waitForResult w = true
      · simp [waitLoopExit, hw] at h
        exact h ▸ hw
      · simp [waitLoopExit, hw] at h
        exact ih h

/-- C10: whenever control leaves the wait loop of dequeue (either the
loop was skipped because the queue was non-empty or shutdown was
signalled at entry, or a wakeup saw the predicate true), shutdown is
true or the queue is non-empty at that state, so one of the two
returning branches of the tail is taken and the fall-through path with
no return value is unreachable (dequeueBody never yields none there). -/
theorem c10_no_fallthrough (T : Type) (s0 se : WQState T)
    (wakeups : List (WQState T))
    (h : dequeueExitState s0 wakeups = some se) :
    (dequeueBody se).isSome = true := by
  have hpred : waitForResult se = true := by
    by_cases hwait : (s0.unguarded_queue.isEmpty && !s0.shutting_down) = true
    · rw [dequeueExitState, if_pos hwait] at h
      exact waitLoopExit_pred wakeups se h
    · rw [dequeueExitState, if_neg hwait] at h
      cases h
      simp only [waitForResult]
      rcases Bool.eq_false_or_eq_true s0.shutting_down with hsd | hsd
      · simp [hsd]
      · rcases Bool.eq_false_or_eq_true s0.unguarded_queue.isEmpty with he | he
        · exact absurd (by simp [he, hsd]) hwait
        · simp [he]
  rw [waitForResult, Bool.or_eq_true] at hpred
  rcases hpred with hsd | hne
  · simp [dequeueBody, hsd]
  · match hq : se.unguarded_queue with
    | [] => rw [hq] at hne; simp at hne
    | v :: rest => cases hb : se.shutting_down <;> simp [dequeueBody, hb, hq]

/-- Witness for c10_no_fallthrough: a call entering with an empty queue
and shutdown false, whose first wakeup observes a produced item. -/
theorem c10_no_fallthrough_witness :
    (dequeueBody (⟨false, 100, 0, 0, 5, [some 3]⟩ : WQState Nat)).isSome = true :=
  c10_no_fallthrough Nat ⟨false, 100, 0, 0, 5, []⟩
    ⟨false, 100, 0, 0, 5, [some 3]⟩ [⟨false, 100, 0, 0, 5, [some 3]⟩] rfl

/-- Helper: popN succeeds exactly by dropping from the front. -/
theorem popN_some (q q2 : List (Option T)) (k : Nat) (h : popN q k = some q2) :
    k ≤ q.length ∧ q2 = q.drop k := by
  induction k generalizing q with
  | zero =>
      simp only [popN, Option.some.injEq] at h
      simp [h]
  | succ k ih =>
      match q with
      | [] => simp [popN] at h
      | v :: rest =>
          simp only [popN] at h
          obtain ⟨h1, h2⟩ := ih rest h
          constructor
          · simp only [List.length_cons]
            omega
          · simpa using h2

/-- Helper: a batch of valid items survives the emptiness filter of the
bulk enqueue whole. -/
theorem filter_isSome_map_some (xs : List T) :
    (xs.map some).filter Option.isSome = xs.map some :=
  List.filter_eq_self.mpr fun a ha => by
    rcases List.mem_map.mp ha with ⟨b, _, rfl⟩
    rfl

/-- Helper: one valid-item producer operation with shutdown false keeps
the flag and the capacity, never decreases n_dropped, leaves the new
queue a sublist of the old queue followed by the new items, and when
n_dropped did not move the new queue is exactly that concatenation. -/
theorem applyOp_spec (s t : WQState T) (op : EnqOp T)
    (hsd : s.shutting_down = false) (h : applyOp s op = some t) :
    t.shutting_down = false
    ∧ s.n_dropped ≤ t.n_dropped
    ∧ t.unguarded_queue.Sublist (s.unguarded_queue ++ (opItems op).map some)
    ∧ (t.n_dropped = s.n_dropped →
        t.unguarded_queue = s.unguarded_queue ++ (opItems op).map some) := by
  cases op with
  | single x =>
      by_cases hfull : s.max ≤ s.unguarded_queue.length
      · match hq : s.unguarded_queue with
        | [] =>
            rw [hq] at hfull
            simp only [List.length_nil, Nat.le_zero] at hfull
            simp [applyOp, enqueue, hsd, hq, hfull] at h
        | v :: rest =>
            rw [hq] at hfull
            simp only [List.length_cons] at hfull
            simp [applyOp, enqueue, hsd, hq, hfull] at h
            refine ⟨by simp [h.symm], by simp [h.symm], ?_, ?_⟩
            · rw [h.symm]
              simp only [opItems, List.map_cons, List.map_nil]
              exact (List.sublist_cons_self v rest).append_right [some x]
            · rw [h.symm]
              intro hd
              simp at hd
      · simp [applyOp, enqueue, hsd, hfull] at h
        refine ⟨by simp [h.symm, hsd], by simp [h.symm], ?_, fun _ => ?_⟩
        · rw [h.symm]
          simp [opItems]
        · rw [h.symm]
          simp [opItems]
  | bulk xs =>
      simp only [applyOp, enqueueBulk, hsd, Bool.false_eq_true, if_false,
        filter_isSome_map_some, List.length_map] at h
      match hxs : xs with
      | [] =>
          simp at h
          refine ⟨by simp [h.symm, hsd], by simp [h.symm], ?_, fun _ => ?_⟩
          · rw [h.symm]
            simp [opItems]
          · rw [h.symm]
            simp [opItems]
      | y :: ys =>
          rw [if_neg (by simp)] at h
          cases hpop : popN s.unguarded_queue
              (s.unguarded_queue.length + (y :: ys).length - s.max) with
          | none => rw [hpop] at h; simp at h
          | some q2 =>
              rw [hpop] at h
              simp only [Option.some.injEq] at h
              obtain ⟨hle, hq2⟩ := popN_some _ _ _ hpop
              subst hq2
              refine ⟨by simp [h.symm, hsd], by simp [h.symm], ?_, ?_⟩
              · rw [h.symm]
                simpa [opItems] using
                  (List.drop_sublist
                    (s.unguarded_queue.length + (y :: ys).length - s.max)
                    s.unguarded_queue).append_right ((y :: ys).map some)
              · rw [h.symm]
                intro hd
                simp at hd
                simp [opItems, hd]

/-- Helper: a run of valid-item producer operations from a non-shutdown
state, when it completes, keeps the flag down, never decreases
n_dropped, leaves the final queue a sublist of the initial queue
followed by all enqueued items in order, and when n_dropped did not move
at all (no eviction) the final queue is exactly that concatenation. -/
theorem applyOps_spec (ops : List (EnqOp T)) (s t : WQState T)
    (hsd : s.shutting_down = false) (h : applyOps s ops = some t) :
    t.shutting_down = false
    ∧ s.n_dropped ≤ t.n_dropped
    ∧ t.unguarded_queue.Sublist (s.unguarded_queue ++ (opsItems ops).map some)
    ∧ (t.n_dropped = s.n_dropped →
        t.unguarded_queue = s.unguarded_queue ++ (opsItems ops).map some) := by
  induction ops generalizing s with
  | nil =>
      simp only [applyOps, Option.some.injEq] at h
      subst h
      exact ⟨hsd, le_refl _, by simp [opsItems], by simp [opsItems]⟩
  | cons op ops ih =>
      simp only [applyOps, Option.bind_eq_some] at h
      obtain ⟨s1, h1, h2⟩ := h
      obtain ⟨hsd1, hd1, hsub1, heq1⟩ := applyOp_spec s s1 op hsd h1
      obtain ⟨hsd2, hd2, hsub2, heq2⟩ := ih s1 hsd1 h2
      refine ⟨hsd2, le_trans hd1 hd2, ?_, ?_⟩
      · have step : (s1.unguarded_queue ++ (opsItems ops).map some).Sublist
            ((s.unguarded_queue ++ (opItems op).map some) ++ (opsItems ops).map some) :=
          hsub1.append_right _
        have : t.unguarded_queue.Sublist
            ((s.unguarded_queue ++ (opItems op).map some) ++ (opsItems ops).map some) :=
          hsub2.trans step
        simpa [opsItems, List.append_assoc] using this
      · intro hd
        have e1 : s1.n_dropped = s.n_dropped := by omega
        have e2 : t.n_dropped = s1.n_dropped := by omega
        rw [heq2 e2, heq1 e1]
        simp [opsItems, List.append_assoc]

/-- Helper: n successive dequeue calls from a non-shutdown state holding
at least n items return the first n stored pointers in queue order,
leave the rest, and add n to n_handled. -/
theorem dequeueN_spec (n : Nat) (s : WQState T) (hsd : s.shutting_down = false)
    (h : n ≤ s.unguarded_queue.length) :
    dequeueN s n
      = some (s.unguarded_queue.take n,
          { s with unguarded_queue := s.unguarded_queue.drop n
                   n_handled := s.n_handled + (n : Int) }) := by
  induction n generalizing s with
  | zero => simp [dequeueN]
  | succ n ih =>
      match hq : s.unguarded_queue with
      | [] => rw [hq] at h; simp at h
      | v :: rest =>
          have hb : dequeueBody s
              = some (v, { s with n_handled := s.n_handled + 1
                                  unguarded_queue := rest }) := by
            simp [dequeueBody, hsd, hq]
          rw [hq] at h
          simp only [List.length_cons] at h
          have ih2 := ih { s with n_handled := s.n_handled + 1
                                  unguarded_queue := rest } hsd (by simpa using by omega)
          simp only [dequeueN, hb, Option.bind_eq_bind, Option.some_bind, ih2,
            Option.map_some, hq]
          refine congrArg some ?_
          refine Prod.ext rfl ?_
          simp only [List.drop_succ_cons, List.take_succ_cons]
          refine congrArg₂ (fun a b => WQState.mk s.shutting_down s.wait_interval
            s.n_dropped a s.max b) ?_ rfl
          omega

/-- C8: running any sequence of valid-item enqueues (single or bulk)
from a non-shutdown state, the surviving stored items form a sublist of
the initial queue followed by all enqueued items in order (bulk batches
keeping their internal order), so their relative order is preserved;
draining the final queue with successive dequeues returns exactly the
stored items in that order; and when no eviction occurred (n_dropped
unchanged) the drain returns the initial items followed by every
enqueued item, in exactly enqueue order. -/
theorem c8_fifo_order (T : Type) (s t : WQState T) (ops : List (EnqOp T))
    (hsd : s.shutting_down = false) (h : applyOps s ops = some t) :
    t.unguarded_queue.Sublist (s.unguarded_queue ++ (opsItems ops).map some)
    ∧ dequeueN t t.unguarded_queue.length
        = some (t.unguarded_queue,
            { t with unguarded_queue := []
                     n_handled := t.n_handled + (t.unguarded_queue.length : Int) })
    ∧ (t.n_dropped = s.n_dropped →
        t.unguarded_queue = s.unguarded_queue ++ (opsItems ops).map some) := by
  obtain ⟨hsd2, _, hsub, heq⟩ := applyOps_spec ops s t hsd h
  refine ⟨hsub, ?_, heq⟩
  have hdr := dequeueN_spec t.unguarded_queue.length t hsd2 (le_refl _)
  simpa using hdr

/-- Witness for c8_fifo_order: a fresh queue of capacity 10 receives a
single enqueue of 1 and then a bulk enqueue of [2, 3]; no eviction
occurs and the drain returns 1, 2, 3 in order. -/
theorem c8_fifo_order_witness :
    (⟨false, 100, 0, 0, 10, [some 1, some 2, some 3]⟩ :
        WQState Nat).unguarded_queue.Sublist
      ((work_queue false 10 100 : WQState Nat).unguarded_queue
        ++ (opsItems [EnqOp.single 1, EnqOp.bulk [2, 3]]).map some)
    ∧ dequeueN (⟨false, 100, 0, 0, 10, [some 1, some 2, some 3]⟩ : WQState Nat)
        (⟨false, 100, 0, 0, 10, [some 1, some 2, some 3]⟩ :
          WQState Nat).unguarded_queue.length
        = some ((⟨false, 100, 0, 0, 10, [some 1, some 2, some 3]⟩ :
              WQState Nat).unguarded_queue,
            { (⟨false, 100, 0, 0, 10, [some 1, some 2, some 3]⟩ : WQState Nat) with
                unguarded_queue := []
                n_handled := (⟨false, 100, 0, 0, 10, [some 1, some 2, some 3]⟩ :
                    WQState Nat).n_handled
                  + ((⟨false, 100, 0, 0, 10, [some 1, some 2, some 3]⟩ :
                      WQState Nat).unguarded_queue.length : Int) })
    ∧ ((⟨false, 100, 0, 0, 10, [some 1, some 2, some 3]⟩ :
          WQState Nat).n_dropped
        = (work_queue false 10 100 : WQState Nat).n_dropped →
        (⟨false, 100, 0, 0, 10, [some 1, some 2, some 3]⟩ :
            WQState Nat).unguarded_queue
          = (work_queue false 10 100 : WQState Nat).unguarded_queue
            ++ (opsItems [EnqOp.single 1, EnqOp.bulk [2, 3]]).map some) :=
  c8_fifo_order Nat (work_queue false 10 100)
    ⟨false, 100, 0, 0, 10, [some 1, some 2, some 3]⟩
    [EnqOp.single 1, EnqOp.bulk [2, 3]] rfl (by decide)

end WorkQueue
